import Mathlib

/-!
Shallow embedding of `fastapi_back/main.py` (an in-memory mission-record API):
password/token based authentication, an in-memory mission store with
sequential ID allocation, a multi-predicate query engine, and a synthetic
mission generator.  Python floats are modelled by exact rationals, Python
dicts keyed by strings by ordered association lists, and the random draws
consumed by the generator by explicit input data.
-/

namespace FastapiBack
/-! ### Decimal rendering of naturals

Embeds Python decimal formatting of integers (as used by the f-string
`f"M{1000 + next_id}"` and by `datetime.isoformat`).  A fuel-based digit
expansion is used so that concrete instances reduce by `decide`. -/

/-- Least-significant-first decimal digits of `n`, with explicit fuel
(`fuel ≥ n` suffices). -/
def toDigitsRev : ℕ → ℕ → List ℕ
  | 0, _ => []
  | fuel + 1, n => if n < 10 then [n] else n % 10 :: toDigitsRev fuel (n / 10)

/-- Value of a least-significant-first decimal digit list. -/
def digitsVal : List ℕ → ℕ
  | [] => 0
  | d :: ds => d + 10 * digitsVal ds

/-- Decimal rendering of a natural number, as produced by Python `str`. -/
def natRepr (n : ℕ) : String :=
  if n = 0 then "0" else ⟨((toDigitsRev n n).map Nat.digitChar).reverse⟩

/-! ### ISO-8601 rendering

Embeds `datetime.isoformat()` on a microsecond-zero instant of calendar
year 2025, applied to a count of whole seconds since 2025-01-01T00:00:00. -/

/-- Two-digit zero-padded decimal field of an ISO timestamp. -/
def pad2 (n : ℕ) : String := if n < 10 then "0" ++ natRepr n else natRepr n

/-- Month lengths of (non-leap) year 2025. -/
def monthLengths : List ℕ := [31, 28, 31, 30, 31, 30, 31, 31, 30, 31, 30, 31]

/-- Convert a 0-based day of year to a (1-based month, 1-based day) pair by
walking the month-length table. -/
def monthDayAux : List ℕ → ℕ → ℕ → ℕ × ℕ
  | [], m, d => (m, d + 1)
  | len :: rest, m, d => if d < len then (m, d + 1) else monthDayAux rest (m + 1) (d - len)

/-- Month and day of a 0-based day of year 2025. -/
def monthDay (dayOfYear : ℕ) : ℕ × ℕ := monthDayAux monthLengths 1 dayOfYear

/-- The string `datetime.isoformat()` produces for a whole-second instant of
2025, given the count of seconds since 2025-01-01T00:00:00. -/
def render2025 (secs : ℕ) : String :=
  let rem := secs % 86400
  let md := monthDay (secs / 86400)
  "2025-" ++ pad2 md.1 ++ "-" ++ pad2 md.2 ++ "T" ++
    pad2 (rem / 3600) ++ ":" ++ pad2 (rem % 3600 / 60) ++ ":" ++ pad2 (rem % 60)

/-- The timestamp rendering used throughout the source:
`isoformat() + "Z"` on a whole-second 2025 instant. -/
def isoZ (secs : ℕ) : String := render2025 secs ++ "Z"

/-! ### Rational helpers: absolute value and 6-decimal rounding -/

/-- Python `abs` on exact rationals. -/
def ratAbs (x : ℚ) : ℚ := if x < 0 then -x else x

/-- Python `round(x, 6)` modelled on exact rationals (rounding to the nearest
multiple of `10⁻⁶`; the tie-breaking rule is immaterial to the theorems). -/
def round6 (x : ℚ) : ℚ := (round (x * 1000000) : ℤ) / 1000000

/-! ### Data model

`users_db` maps an email to the stored user dict; `missions_db` maps a
mission id to the mission dict (a Python dict preserving insertion order,
modelled as an ordered association list); `data_db` and `simulations_db`
are append-only lists. -/

/-- A stored user dict: `{first_name, last_name, email, password}` where
`password` holds the bcrypt hash (line 123 of the source). -/
structure UserRec where
  first_name : String
  last_name : String
  email : String
  password : String
  deriving DecidableEq, Repr

/-- A mission dict as assembled by `simulate_missions` (lines 286-301).
The `end_time` key is present only for completed missions, modelled by
`Option`.  GPS floats are modelled by exact rationals. -/
structure MissionRec where
  mission_id : String
  sensor_type : String
  type : String
  timestamp : String
  start_time : String
  gps_lat : ℚ
  gps_lon : ℚ
  status : String
  progress : ℕ
  end_time : Option String
  deriving DecidableEq, Repr

/-- An uploaded observation (`UploadData` model, lines 71-78). -/
structure UploadRec where
  mission_id : String
  timestamp : String
  gps_lat : ℚ
  gps_lon : ℚ
  gps_alt : Option ℚ
  sensor_type : String
  data_url : Option String
  deriving DecidableEq, Repr

/-- A `HTTPException`: status code and detail message. -/
abbrev HttpError := ℕ × String

/-! ### Password hashing (Credential Store)

Modelled from the spec: the hashing itself lives in the external `passlib`
bcrypt backend, not in the source; §4.1 requires a salted one-way hash such
that verification succeeds exactly when the supplied password matches the
registered one.  It is abstracted as a tagged copy of the password, which
realises "verify succeeds iff the password matches". -/

/-- Model of `hash_password` (source line 35). -/
def hash_password (password : String) : String := ⟨"$2b$12$".toList ++ password.toList⟩

/-- Model of `verify_password` (source line 39): bcrypt verification of
`password` against a stored hash. -/
def verify_password (password hashed : String) : Bool := hashed == hash_password password

/-! ### Token service (JWT)

Modelled from the spec: `jose.jwt.encode`/`decode` are external library
calls; §4.2 requires a token of signed structure whose verification checks
signature and shape against the shared secret.  The model renders the token
as `header.payload.signature` over the character alphabet, with the
signature an injective tag of the payload and the secret. -/

/-- Source line 28. -/
def SECRET_KEY : String := "SUPER_SECRET_KEY_123"

/-- The fixed JWT header for algorithm HS256 (source line 29). -/
def jwtHeader : List Char := "eyJhbGciOiJIUzI1NiJ9".toList

/-- Model of the HMAC-SHA256 signature over the payload with `SECRET_KEY`. -/
def jwtSignL (payload : List Char) : List Char :=
  "HMAC[".toList ++ SECRET_KEY.toList ++ "]:".toList ++ payload

/-- Model of `create_jwt` (source line 43) for the payload `{"sub": sub}`. -/
def create_jwt (sub : String) : String :=
  ⟨jwtHeader ++ '.' :: sub.toList ++ '.' :: jwtSignL sub.toList⟩

/-- Split a character list at every dot, keeping empty groups. -/
def splitDots : List Char → List (List Char)
  | [] => [[]]
  | c :: cs =>
      match splitDots cs with
      | [] => if c = '.' then [[], [c]] else [[c]]
      | g :: gs => if c = '.' then [] :: g :: gs else (c :: g) :: gs

/-- Model of `decode_jwt` (source line 47): returns the subject claim when
the token has the three-part shape with the correct header and signature,
and `none` (the `JWTError` branch) otherwise. -/
def decode_jwt (token : String) : Option String :=
  match splitDots token.toList with
  | [h, p, s] => if h = jwtHeader ∧ s = jwtSignL p then some ⟨p⟩ else none
  | _ => none

/-- Model of `get_current_user` (source lines 54-65): decode the bearer
token, then look the subject email up in the user table. -/
def get_current_user (users : List (String × UserRec)) (token : String) :
    Except HttpError UserRec :=
  match decode_jwt token with
  | none => .error (401, "Invalid or expired token")
  | some email =>
      match users.lookup email with
      | none => .error (404, "User not found")
      | some u => .ok u

/-! ### Signup and login -/

/-- Model of `signup` (source lines 118-133): returns the updated user
table, or a 400 error on a duplicate email. -/
def signup (users : List (String × UserRec))
    (first_name last_name email password : String) :
    Except HttpError (List (String × UserRec)) :=
  if (users.lookup email).isSome then
    .error (400, "Email already registered")
  else
    .ok (users ++ [(email,
      { first_name := first_name, last_name := last_name, email := email,
        password := hash_password password })])

/-- The success payload of `login` (source lines 148-152). -/
structure LoginResp where
  status : String
  access_token : String
  token_type : String
  deriving DecidableEq, Repr

/-- The first two steps of `login` (source lines 138-144): the spec's
`authenticate` operation.  Looks the email up and verifies the password,
returning the stored user record. -/
def authenticate (users : List (String × UserRec)) (email password : String) :
    Except HttpError UserRec :=
  match users.lookup email with
  | none => .error (404, "User not found")
  | some u =>
      if verify_password password u.password then .ok u
      else .error (401, "Incorrect password")

/-- Model of `login` (source lines 136-152): authenticate, then answer with
a freshly issued token. -/
def login (users : List (String × UserRec)) (email password : String) :
    Except HttpError LoginResp :=
  (authenticate users email password).map fun _ =>
    { status := "success", access_token := create_jwt email, token_type := "Bearer" }

/-! ### Query engine (`query_data`, source lines 185-247) -/

/-- The optional query parameters of `query_data` (source lines 187-190). -/
structure Filters where
  start_date : Option String
  sensor_type : Option String
  lat : Option ℚ
  lon : Option ℚ
  deriving DecidableEq, Repr

/-- The response of `query_data` (source lines 238-247). -/
structure QueryResp where
  filters_applied : Filters
  total_found : ℕ
  results : List MissionRec
  deriving DecidableEq, Repr

/-- Stage 1 of `query_data` (source lines 203-207): `if start_date:` is
Python truthiness, so `none` and the empty string both skip the filter;
the kept records are those with a truthy `timestamp` that compares `≥`
the bound (Python lexicographic string comparison). -/
def startFilter (sd : Option String) (l : List MissionRec) : List MissionRec :=
  match sd with
  | none => l
  | some s =>
      if s = "" then l
      else l.filter fun r => !(r.timestamp == "") && decide (s ≤ r.timestamp)

/-- Stage 2 of `query_data` (source lines 212-216): exact `sensor_type`
match, skipped when the parameter is `None` or empty (truthiness). -/
def sensorFilter (st : Option String) (l : List MissionRec) : List MissionRec :=
  match st with
  | none => l
  | some s => if s = "" then l else l.filter fun r => r.sensor_type == s

/-- Stage 3 of `query_data` (source lines 221-226): keep records whose
`gps_lat` is within `0.001` of the bound; skipped only on `None`. -/
def latFilter (la : Option ℚ) (l : List MissionRec) : List MissionRec :=
  match la with
  | none => l
  | some x => l.filter fun r => decide (ratAbs (r.gps_lat - x) ≤ 1 / 1000)

/-- Stage 4 of `query_data` (source lines 231-236): same for `gps_lon`. -/
def lonFilter (lo : Option ℚ) (l : List MissionRec) : List MissionRec :=
  match lo with
  | none => l
  | some x => l.filter fun r => decide (ratAbs (r.gps_lon - x) ≤ 1 / 1000)

/-- Model of `query_data` (source lines 185-247): start from all stored
missions in insertion order and apply the four filter stages in program
order, echoing the filters and the result count. -/
def query_data (store : List (String × MissionRec)) (f : Filters) : QueryResp :=
  let results :=
    lonFilter f.lon (latFilter f.lat (sensorFilter f.sensor_type
      (startFilter f.start_date (store.map Prod.snd))))
  { filters_applied := f, total_found := results.length, results := results }

/-- Transcription of the spec's §4.5 filter semantics, one predicate per
recognized option: timestamp `≥ start_date` lexicographically, exact
`sensor_type` equality, and GPS proximity within `0.001`; absent options
impose no constraint. -/
def specQueryPred (f : Filters) (r : MissionRec) : Bool :=
  (match f.start_date with
    | none => true
    | some s => decide (s ≤ r.timestamp)) &&
  (match f.sensor_type with
    | none => true
    | some s => r.sensor_type == s) &&
  (match f.lat with
    | none => true
    | some x => decide (|r.gps_lat - x| ≤ 1 / 1000)) &&
  (match f.lon with
    | none => true
    | some x => decide (|r.gps_lon - x| ≤ 1 / 1000))

/-- The per-record predicate actually realised by the code: identical to
`specQueryPred` except that an empty-string `sensor_type` parameter imposes
no constraint (Python truthiness skips that filter). -/
def amendedQueryPred (f : Filters) (r : MissionRec) : Bool :=
  (match f.start_date with
    | none => true
    | some s => decide (s ≤ r.timestamp)) &&
  (match f.sensor_type with
    | none => true
    | some s => s == "" || r.sensor_type == s) &&
  (match f.lat with
    | none => true
    | some x => decide (|r.gps_lat - x| ≤ 1 / 1000)) &&
  (match f.lon with
    | none => true
    | some x => decide (|r.gps_lon - x| ≤ 1 / 1000))

/-- The same four stages applied in the opposite order. -/
def query_data_rev (store : List (String × MissionRec)) (f : Filters) : List MissionRec :=
  startFilter f.start_date (sensorFilter f.sensor_type
    (latFilter f.lat (lonFilter f.lon (store.map Prod.snd))))

/-! ### Simulation generator (`simulate_missions`, source lines 253-317)

The loop body consumes fresh randomness each iteration; it is modelled by
an explicit list of `Draw` records, one per iteration, so `range(num)`
corresponds to a draw list of length `num.toNat` (empty for `num ≤ 0`).
`datetime` arithmetic is carried out on exact rational second counts since
2025-01-01T00:00:00; the microsecond resolution of `timedelta` is
abstracted away (only whole-second truncation is observable). -/

/-- The random draws consumed by one iteration of the simulate loop, in
program order (source lines 269-300): `random.random()` for the start
instant, `random.choice` over the three statuses and over the three sensor
types (as the chosen index), the unit draws underlying
`random.uniform(4.0, 6.0)` and `random.uniform(-75.5, -73.5)`,
`random.randint(0, 100)` for progress, and `random.randint(1, 180)` for
the completed-mission duration in minutes (stored as the value minus 1). -/
structure Draw where
  u_start : ℚ
  status_choice : Fin 3
  sensor_choice : Fin 3
  u_lat : ℚ
  u_lon : ℚ
  progress : Fin 101
  durationPred : Fin 180
  deriving DecidableEq, Repr

/-- The unit draws returned by `random.random()` lie in `[0, 1)`. -/
def ValidDraw (d : Draw) : Prop :=
  0 ≤ d.u_start ∧ d.u_start < 1 ∧ 0 ≤ d.u_lat ∧ d.u_lat < 1 ∧ 0 ≤ d.u_lon ∧ d.u_lon < 1

/-- Source line 260. -/
def mission_types : List String := ["thermal", "multispectral", "lidar"]

/-- Source line 276. -/
def statusChoices : List String := ["pending", "processing", "completed"]

/-- Mission-id rendering `f"M{1000 + next_id}"` (source line 266). -/
def mkId (n : ℕ) : String := "M" ++ natRepr (1000 + n)

/-- Number of seconds in `datetime(2025,12,31) - datetime(2025,1,1)`:
364 days (source lines 269-272). -/
def spanSecs : ℚ := 31449600

/-- The start instant in rational seconds since 2025-01-01, before
truncation: `epoch + span * random.random()`. -/
def startSecsQ (d : Draw) : ℚ := spanSecs * d.u_start

/-- One loop iteration of `simulate_missions` (source lines 263-301):
build the mission dict for a store currently holding `count` missions
from the iteration's draws. -/
def mkMission (count : ℕ) (d : Draw) : MissionRec :=
  let start_time := isoZ (⌊startSecsQ d⌋).toNat
  let status := statusChoices.get d.status_choice
  let sensor := mission_types.get d.sensor_choice
  { mission_id := mkId (count + 1)
    sensor_type := sensor
    type := sensor
    timestamp := start_time
    start_time := start_time
    gps_lat := round6 (4 + 2 * d.u_lat)
    gps_lon := round6 (-75.5 + 2 * d.u_lon)
    status := status
    progress := d.progress.val
    end_time :=
      if status == "completed" then
        some (isoZ (⌊startSecsQ d + 60 * ((d.durationPred.val : ℚ) + 1)⌋).toNat)
      else none }

/-- Python dict assignment `missions_db[mission_id] = mission` (source
line 304): overwrite in place when the key exists, append otherwise. -/
def dictInsert (store : List (String × MissionRec)) (k : String) (v : MissionRec) :
    List (String × MissionRec) :=
  if store.any (fun p => p.1 == k) then
    store.map fun p => if p.1 == k then (k, v) else p
  else store ++ [(k, v)]

/-- The `for _ in range(num)` loop of `simulate_missions`: threads the
mission store and accumulates `created_missions` in order. -/
def simLoop : List (String × MissionRec) → List Draw →
    List (String × MissionRec) × List MissionRec
  | store, [] => (store, [])
  | store, d :: ds =>
      let m := mkMission store.length d
      let res := simLoop (dictInsert store m.mission_id m) ds
      (res.1, m :: res.2)

/-- A stored simulation run (source lines 308-313). -/
structure SimRun where
  simulation_id : ℕ
  missions_generated : ℤ
  timestamp : String
  missions : List MissionRec
  deriving DecidableEq, Repr

/-- The process-wide mutable tables (source lines 19-22). -/
structure AppState where
  missions_db : List (String × MissionRec)
  data_db : List UploadRec
  simulations_db : List SimRun
  users_db : List (String × UserRec)
  deriving DecidableEq, Repr

/-- Model of `simulate_missions` (source lines 253-317): run the loop,
then append one `SimRun` (with `missions_generated = num` and the next
sequential `simulation_id`) to the simulation log.  `now` stands for the
rendered `datetime.utcnow()` timestamp. -/
def simulate_missions (num : ℤ) (draws : List Draw) (now : String) (st : AppState) :
    SimRun × AppState :=
  let res := simLoop st.missions_db draws
  let run : SimRun :=
    { simulation_id := st.simulations_db.length + 1
      missions_generated := num
      timestamp := now
      missions := res.2 }
  (run, { st with missions_db := res.1, simulations_db := st.simulations_db ++ [run] })

/-- The response of `upload_data` (source lines 171-175). -/
structure UploadResp where
  status : String
  message : String
  received : UploadRec
  deriving DecidableEq, Repr

/-- Model of `upload_data` (source lines 168-175): append the observation
to `data_db`; the mission store is untouched. -/
def upload_data (st : AppState) (d : UploadRec) : UploadResp × AppState :=
  ({ status := "success", message := "Data received successfully", received := d },
    { st with data_db := st.data_db ++ [d] })

/-- Model of `get_mission_status` (source lines 178-182): a pure lookup. -/
def get_mission_status (st : AppState) (mission_id : String) :
    Except HttpError MissionRec × AppState :=
  (match st.missions_db.lookup mission_id with
    | none => .error (404, "Mission \x27" ++ mission_id ++ "\x27 not found")
    | some m => .ok m, st)

/-- Model of the `simulations` listing endpoint (source lines 322-324). -/
def get_simulations (st : AppState) : List SimRun × AppState :=
  (st.simulations_db, st)

/-- Model of the `query` endpoint as a state transformer: `query_data`
reads the mission table and writes nothing. -/
def query_endpoint (st : AppState) (f : Filters) : QueryResp × AppState :=
  (query_data st.missions_db f, st)

/-- The reachable shape of the mission store: its keys are exactly
`M1001 … M<1000+len>` in insertion order (only `simulate_missions` ever
inserts). -/
def goodStore (store : List (String × MissionRec)) : Prop :=
  store.map Prod.fst = (List.range store.length).map fun i => mkId (i + 1)

/-! ### Concrete fixtures used by witnesses and counterexamples -/

/-- The empty process state at startup (source lines 19-22). -/
def emptyState : AppState :=
  { missions_db := [], data_db := [], simulations_db := [], users_db := [] }

/-- A concrete draw with all unit draws equal to `1/2` and completed
status. -/
def wDraw : Draw :=
  { u_start := 1/2, status_choice := 2, sensor_choice := 0, u_lat := 1/2,
    u_lon := 1/2, progress := 50, durationPred := 9 }

/-- A concrete stored mission. -/
def wMission : MissionRec :=
  { mission_id := "M1001", sensor_type := "thermal", type := "thermal",
    timestamp := "2025-06-01T00:00:00Z", start_time := "2025-06-01T00:00:00Z",
    gps_lat := 5, gps_lon := -74, status := "pending", progress := 50,
    end_time := none }

/-- A one-mission store of the reachable shape. -/
def wStore : List (String × MissionRec) := [("M1001", wMission)]

/-- A process state holding `wStore`. -/
def wState : AppState :=
  { missions_db := wStore, data_db := [], simulations_db := [], users_db := [] }

/-- The filter configuration supplying an empty-string `sensor_type`. -/
def cexFilters : Filters :=
  { start_date := none, sensor_type := some "", lat := none, lon := none }

/-- The all-absent filter configuration. -/
def noFilters : Filters :=
  { start_date := none, sensor_type := none, lat := none, lon := none }

/-- A concrete registered user (registered with password `pw1`). -/
def wUser : UserRec :=
  { first_name := "A", last_name := "B", email := "a@xcom",
    password := hash_password "pw1" }

/-- A user table holding only `wUser`. -/
def wUsers : List (String × UserRec) := [("a@xcom", wUser)]

/-- A syntactically invalid bearer token. -/
def junkToken : String := "garbage"


theorem digitsVal_toDigitsRev : ∀ fuel n, n ≤ fuel → digitsVal (toDigitsRev fuel n) = n := by
  intro fuel
  induction fuel with
  | zero =>
    intro n hn
    have hn0 : n = 0 := Nat.le_zero.mp hn
    simp [hn0, toDigitsRev, digitsVal]
  | succ f ih =>
    intro n hn
    by_cases h10 : n < 10
    · simp [toDigitsRev, h10, digitsVal]
    · have hdivle : n / 10 ≤ f := by
        have : n / 10 < n := Nat.div_lt_self (by omega) (by omega)
        omega
      have hrec := ih (n / 10) hdivle
      simp only [toDigitsRev, h10, if_false, digitsVal, hrec]
      omega

theorem toDigitsRev_lt_ten : ∀ fuel n d, d ∈ toDigitsRev fuel n → d < 10 := by
  intro fuel
  induction fuel with
  | zero => intro n d hd; simp [toDigitsRev] at hd
  | succ f ih =>
    intro n d hd
    by_cases h10 : n < 10
    · simp [toDigitsRev, h10] at hd
      omega
    · simp only [toDigitsRev, h10, if_false, List.mem_cons] at hd
      rcases hd with h | h
      · omega
      · exact ih _ _ h

theorem map_digitChar_inj :
    ∀ l₁ l₂ : List ℕ, (∀ d ∈ l₁, d < 10) → (∀ d ∈ l₂, d < 10) →
      l₁.map Nat.digitChar = l₂.map Nat.digitChar → l₁ = l₂ := by
  intro l₁
  induction l₁ with
  | nil =>
    intro l₂ _ _ h
    cases l₂ with
    | nil => rfl
    | cons b bs => simp at h
  | cons a as ih =>
    intro l₂ h₁ h₂ h
    cases l₂ with
    | nil => simp at h
    | cons b bs =>
      simp only [List.map_cons, List.cons.injEq] at h
      have ha : a < 10 := h₁ a (List.mem_cons_self a as)
      have hb : b < 10 := h₂ b (List.mem_cons_self b bs)
      have hab : a = b := by
        have key : ∀ x : ℕ, x < 10 → ∀ y : ℕ, y < 10 →
            Nat.digitChar x = Nat.digitChar y → x = y := by decide
        exact key a ha b hb h.1
      have htl : as = bs :=
        ih bs (fun d hd => h₁ d (List.mem_cons_of_mem a hd))
          (fun d hd => h₂ d (List.mem_cons_of_mem b hd)) h.2
      rw [hab, htl]

/-- The decimal rendering of a nonzero number is never the string `0`. -/
theorem natRepr_digits_ne_zero {n : ℕ}
    (h : ((toDigitsRev n n).map Nat.digitChar).reverse = ['0']) : n = 0 := by
  have h1 : (toDigitsRev n n).map Nat.digitChar = ['0'] := by
    have h2 := congrArg List.reverse h
    simpa using h2
  have h2 : toDigitsRev n n = [0] := by
    cases hd : toDigitsRev n n with
    | nil => rw [hd] at h1; simp at h1
    | cons a as =>
      rw [hd] at h1
      cases as with
      | nil =>
        simp only [List.map_cons, List.map_nil, List.cons.injEq, and_true] at h1
        have ha : a < 10 :=
          toDigitsRev_lt_ten n n a (by rw [hd]; exact List.mem_cons_self a [])
        have key : ∀ x : ℕ, x < 10 → Nat.digitChar x = '0' → x = 0 := by decide
        rw [key a ha h1]
      | cons b bs => simp at h1
  have h3 := digitsVal_toDigitsRev n n le_rfl
  rw [h2] at h3
  simpa [digitsVal] using h3.symm

theorem natRepr_injective : Function.Injective natRepr := by
  intro m n h
  by_cases hm : m = 0 <;> by_cases hn : n = 0
  · omega
  · exfalso
    apply hn
    rw [hm] at h
    have hns : natRepr n = ⟨((toDigitsRev n n).map Nat.digitChar).reverse⟩ := by
      unfold natRepr
      rw [if_neg hn]
    have h0 : natRepr 0 = "0" := rfl
    rw [h0, hns] at h
    exact natRepr_digits_ne_zero (congrArg String.data h).symm
  · exfalso
    apply hm
    rw [hn] at h
    have hms : natRepr m = ⟨((toDigitsRev m m).map Nat.digitChar).reverse⟩ := by
      unfold natRepr
      rw [if_neg hm]
    have h0 : natRepr 0 = "0" := rfl
    rw [h0, hms] at h
    exact natRepr_digits_ne_zero (congrArg String.data h)
  · have hms : natRepr m = ⟨((toDigitsRev m m).map Nat.digitChar).reverse⟩ := by
      unfold natRepr
      rw [if_neg hm]
    have hns : natRepr n = ⟨((toDigitsRev n n).map Nat.digitChar).reverse⟩ := by
      unfold natRepr
      rw [if_neg hn]
    rw [hms, hns] at h
    have hdata : ((toDigitsRev m m).map Nat.digitChar).reverse
        = ((toDigitsRev n n).map Nat.digitChar).reverse := congrArg String.data h
    have hmap : (toDigitsRev m m).map Nat.digitChar = (toDigitsRev n n).map Nat.digitChar :=
      List.reverse_injective hdata
    have hdig : toDigitsRev m m = toDigitsRev n n :=
      map_digitChar_inj _ _ (fun d hd => toDigitsRev_lt_ten m m d hd)
        (fun d hd => toDigitsRev_lt_ten n n d hd) hmap
    calc m = digitsVal (toDigitsRev m m) := (digitsVal_toDigitsRev m m le_rfl).symm
      _ = digitsVal (toDigitsRev n n) := by rw [hdig]
      _ = n := digitsVal_toDigitsRev n n le_rfl

/-- Python renders `str(0)` as `0`. -/
theorem natRepr_zero : natRepr 0 = "0" := rfl

/-- Zero-valued fields are zero-padded to two digits as `isoformat` does:
the epoch instant of 2025 renders as `2025-01-01T00:00:00`. -/
theorem render2025_zero : render2025 0 = "2025-01-01T00:00:00" := by decide

/-- A mid-year whole-second instant renders with full two-digit fields and
the trailing `Z`. -/
theorem isoZ_concrete : isoZ 15724923 = "2025-07-02T00:02:03Z" := by decide

/-- A rendered timestamp always ends in the character `Z`. -/
theorem isoZ_ends_in_Z (secs : ℕ) : ∃ s, isoZ secs = s ++ "Z" := ⟨render2025 secs, rfl⟩

theorem ratAbs_eq_abs (x : ℚ) : ratAbs x = |x| := by
  unfold ratAbs
  rcases lt_or_le x 0 with h | h
  · simp [h, abs_of_neg h]
  · simp [not_lt.mpr h, abs_of_nonneg h]

theorem round6_le_of_lt {x b : ℚ} (hb : ∃ z : ℤ, b = z / 1000000) (h : x < b) :
    round6 x ≤ b := by
  obtain ⟨z, rfl⟩ := hb
  unfold round6
  rw [div_le_div_right (by norm_num : (0:ℚ) < 1000000)]
  have hlt : round (x * 1000000) < z + 1 := by
    rw [round_eq]
    apply Int.floor_lt.mpr
    push_cast
    have : x * 1000000 < z := (lt_div_iff (by norm_num : (0:ℚ) < 1000000)).mp h
    linarith
  exact_mod_cast Int.lt_add_one_iff.mp hlt

theorem le_round6_of_le {x b : ℚ} (hb : ∃ z : ℤ, b = z / 1000000) (h : b ≤ x) :
    b ≤ round6 x := by
  obtain ⟨z, rfl⟩ := hb
  unfold round6
  rw [div_le_div_right (by norm_num : (0:ℚ) < 1000000)]
  have hle : z ≤ round (x * 1000000) := by
    rw [round_eq]
    apply Int.le_floor.mpr
    push_cast
    have : (z : ℚ) ≤ x * 1000000 := (div_le_iff (by norm_num : (0:ℚ) < 1000000)).mp h
    linarith
  exact_mod_cast hle

/-- `round6` always lands on a multiple of `10⁻⁶`. -/
theorem round6_is_multiple (x : ℚ) : ∃ z : ℤ, round6 x = z / 1000000 :=
  ⟨round (x * 1000000), rfl⟩

/-! ### Lexicographic string order facts used by the query engine -/

theorem empty_le_string (t : String) : ("" : String) ≤ t := by
  rw [String.le_iff_toList_le]
  exact le_of_le_of_eq List.nil_le (by rfl)

theorem le_empty_string {t : String} (h : t ≤ "") : t = "" := by
  rw [String.le_iff_toList_le] at h
  have h2 : t.toList = [] :=
    le_antisymm (le_of_le_of_eq h (by rfl)) List.nil_le
  exact String.toList_inj.mp (h2.trans String.toList_empty.symm)

theorem verify_password_iff (p q : String) :
    verify_password p (hash_password q) = true ↔ p = q := by
  unfold verify_password hash_password
  rw [beq_iff_eq]
  constructor
  · intro h
    have hdata := congrArg String.data h
    simp only at hdata
    have := List.append_cancel_left hdata
    exact String.toList_inj.mp this.symm
  · intro h
    rw [h]

theorem startFilter_eq (sd : Option String) (l : List MissionRec) :
    startFilter sd l = l.filter fun r =>
      match sd with
      | none => true
      | some s => decide (s ≤ r.timestamp) := by
  cases sd with
  | none => simp [startFilter]
  | some s =>
    by_cases hs : s = ""
    · subst hs
      simp only [startFilter, if_pos rfl]
      exact (List.filter_eq_self.mpr fun r _ => by
        simpa using empty_le_string r.timestamp).symm
    · simp only [startFilter, if_neg hs]
      apply List.filter_congr
      intro r _
      by_cases ht : r.timestamp = ""
      · have hns : ¬ (s ≤ r.timestamp) := fun hle => hs (le_empty_string (ht ▸ hle))
        have hd : decide (s ≤ r.timestamp) = false := decide_eq_false hns
        rw [hd]
        simp
      · simp [ht]

theorem sensorFilter_eq (st : Option String) (l : List MissionRec) :
    sensorFilter st l = l.filter fun r =>
      match st with
      | none => true
      | some s => s == "" || r.sensor_type == s := by
  cases st with
  | none => simp [sensorFilter]
  | some s =>
    by_cases hs : s = ""
    · subst hs
      simp [sensorFilter]
    · simp only [sensorFilter, if_neg hs]
      apply List.filter_congr
      intro r _
      simp [hs]

theorem latFilter_eq (la : Option ℚ) (l : List MissionRec) :
    latFilter la l = l.filter fun r =>
      match la with
      | none => true
      | some x => decide (|r.gps_lat - x| ≤ 1 / 1000) := by
  cases la with
  | none => simp [latFilter]
  | some x => simp [latFilter, ratAbs_eq_abs]

theorem lonFilter_eq (lo : Option ℚ) (l : List MissionRec) :
    lonFilter lo l = l.filter fun r =>
      match lo with
      | none => true
      | some x => decide (|r.gps_lon - x| ≤ 1 / 1000) := by
  cases lo with
  | none => simp [lonFilter]
  | some x => simp [lonFilter, ratAbs_eq_abs]

/-- The four sequenced filter stages collapse to one pass with the
conjunction predicate. -/
theorem query_data_results_eq (store : List (String × MissionRec)) (f : Filters) :
    (query_data store f).results = (store.map Prod.snd).filter (amendedQueryPred f) := by
  unfold query_data
  rw [startFilter_eq, sensorFilter_eq, latFilter_eq, lonFilter_eq,
    List.filter_filter, List.filter_filter, List.filter_filter]
  apply List.filter_congr
  intro r _
  unfold amendedQueryPred
  cases hs : (match f.start_date with
    | none => true
    | some s => decide (s ≤ r.timestamp)) <;>
  cases ht : (match f.sensor_type with
    | none => true
    | some s => s == "" || r.sensor_type == s) <;>
  cases hla : (match f.lat with
    | none => true
    | some x => decide (|r.gps_lat - x| ≤ 1 / 1000)) <;>
  cases hlo : (match f.lon with
    | none => true
    | some x => decide (|r.gps_lon - x| ≤ 1 / 1000)) <;>
  simp [hs, ht, hla, hlo]

theorem mkId_injective : Function.Injective mkId := by
  intro a b h
  have hdata : ('M' :: (natRepr (1000 + a)).data) = ('M' :: (natRepr (1000 + b)).data) :=
    congrArg String.data h
  have : natRepr (1000 + a) = natRepr (1000 + b) :=
    String.toList_inj.mp (List.cons_injective hdata)
  have := natRepr_injective this
  omega

theorem query_data_rev_eq (store : List (String × MissionRec)) (f : Filters) :
    query_data_rev store f = (store.map Prod.snd).filter (amendedQueryPred f) := by
  unfold query_data_rev
  rw [lonFilter_eq, latFilter_eq, sensorFilter_eq, startFilter_eq,
    List.filter_filter, List.filter_filter, List.filter_filter]
  apply List.filter_congr
  intro r _
  unfold amendedQueryPred
  cases hs : (match f.start_date with
    | none => true
    | some s => decide (s ≤ r.timestamp)) <;>
  cases ht : (match f.sensor_type with
    | none => true
    | some s => s == "" || r.sensor_type == s) <;>
  cases hla : (match f.lat with
    | none => true
    | some x => decide (|r.gps_lat - x| ≤ 1 / 1000)) <;>
  cases hlo : (match f.lon with
    | none => true
    | some x => decide (|r.gps_lon - x| ≤ 1 / 1000)) <;>
  simp [hs, ht, hla, hlo]

theorem mkMission_mission_id (count : ℕ) (d : Draw) :
    (mkMission count d).mission_id = mkId (count + 1) := rfl

theorem goodStore_key {store : List (String × MissionRec)} (h : goodStore store)
    {p : String × MissionRec} (hp : p ∈ store) :
    ∃ i, i < store.length ∧ p.1 = mkId (i + 1) := by
  have hmem : p.1 ∈ store.map Prod.fst := List.mem_map_of_mem _ hp
  rw [h] at hmem
  obtain ⟨i, hi, hEq⟩ := List.mem_map.mp hmem
  exact ⟨i, List.mem_range.mp hi, hEq.symm⟩

theorem goodStore_fresh {store : List (String × MissionRec)} (h : goodStore store)
    {j : ℕ} (hj : store.length < j) : ∀ p ∈ store, p.1 ≠ mkId j := by
  intro p hp hEq
  obtain ⟨i, hi, hkey⟩ := goodStore_key h hp
  have : i + 1 = j := mkId_injective (hkey.symm.trans hEq)
  omega

theorem dictInsert_fresh {store : List (String × MissionRec)} {k : String} {v : MissionRec}
    (h : ∀ p ∈ store, p.1 ≠ k) : dictInsert store k v = store ++ [(k, v)] := by
  unfold dictInsert
  have hany : store.any (fun p => p.1 == k) = false :=
    List.any_eq_false.mpr fun p hp => by simp [h p hp]
  rw [hany]
  simp

theorem goodStore_snoc {store : List (String × MissionRec)} (h : goodStore store)
    (v : MissionRec) : goodStore (store ++ [(mkId (store.length + 1), v)]) := by
  unfold goodStore at h ⊢
  simp only [List.map_append, List.length_append, List.map_cons, List.map_nil,
    List.length_cons, List.length_nil]
  rw [h, List.range_succ, List.map_append]
  simp

/-- Complete characterisation of the simulate loop on a well-shaped store:
the final store is the old one extended with the created missions keyed by
their ids, it is again well shaped, and the `i`-th created mission is
`mkMission` of the `i`-th draw at store size `store.length + i`. -/
theorem simLoop_spec : ∀ (draws : List Draw) (store : List (String × MissionRec)),
    goodStore store →
    goodStore (simLoop store draws).1 ∧
    (simLoop store draws).1
      = store ++ ((simLoop store draws).2.map fun m => (m.mission_id, m)) ∧
    (simLoop store draws).2.length = draws.length ∧
    ∀ i, ((simLoop store draws).2)[i]?
      = (draws[i]?).map fun d => mkMission (store.length + i) d := by
  intro draws
  induction draws with
  | nil =>
    intro store h
    refine ⟨h, by simp [simLoop], by simp [simLoop], ?_⟩
    intro i
    simp [simLoop]
  | cons d ds ih =>
    intro store h
    have hfresh : ∀ p ∈ store, p.1 ≠ mkId (store.length + 1) :=
      goodStore_fresh h (by omega)
    have hins : dictInsert store (mkMission store.length d).mission_id (mkMission store.length d)
        = store ++ [(mkId (store.length + 1), mkMission store.length d)] := by
      rw [mkMission_mission_id]
      exact dictInsert_fresh hfresh
    have hgood2 : goodStore (store ++ [(mkId (store.length + 1), mkMission store.length d)]) :=
      goodStore_snoc h _
    obtain ⟨g1, g2, g3, g4⟩ := ih _ hgood2
    have hred : simLoop store (d :: ds)
        = ((simLoop (store ++ [(mkId (store.length + 1), mkMission store.length d)]) ds).1,
            mkMission store.length d ::
              (simLoop (store ++ [(mkId (store.length + 1), mkMission store.length d)]) ds).2) := by
      show ((simLoop (dictInsert store (mkMission store.length d).mission_id
          (mkMission store.length d)) ds).1, _) = _
      rw [hins]
    rw [hred]
    refine ⟨g1, ?_, ?_, ?_⟩
    · rw [g2]
      simp [mkMission_mission_id, List.append_assoc]
    · simp [g3]
    · intro i
      cases i with
      | zero => simp
      | succ j =>
        have := g4 j
        simp only [List.getElem?_cons_succ, this, List.length_append, List.length_cons,
          List.length_nil]
        have harith : store.length + 1 + j = store.length + (j + 1) := by omega
        rw [harith]

theorem simLoop_ids (draws : List Draw) (store : List (String × MissionRec))
    (h : goodStore store) :
    (simLoop store draws).2.map (fun m => m.mission_id)
      = (List.range draws.length).map fun i => mkId (store.length + 1 + i) := by
  obtain ⟨-, -, hlen, hget⟩ := simLoop_spec draws store h
  apply List.ext_getElem?
  intro i
  rw [List.getElem?_map, hget i, List.getElem?_map]
  by_cases hi : i < draws.length
  · rw [List.getElem?_range hi]
    cases hd : draws[i]? with
    | none =>
      have := List.getElem?_eq_none_iff.mp hd
      omega
    | some d =>
      simp only [Option.map_some', mkMission_mission_id, Option.some.injEq]
      have : store.length + i + 1 = store.length + 1 + i := by omega
      rw [this]
  · have h1 : draws[i]? = none := List.getElem?_eq_none_iff.mpr (by omega)
    have h2 : (List.range draws.length)[i]? = none :=
      List.getElem?_eq_none_iff.mpr (by simpa using hi)
    rw [h1, h2]
    simp

theorem simLoop_mem (draws : List Draw) (store : List (String × MissionRec))
    (h : goodStore store) {m : MissionRec} (hm : m ∈ (simLoop store draws).2) :
    ∃ i d, draws[i]? = some d ∧ m = mkMission (store.length + i) d := by
  obtain ⟨-, -, hlen, hget⟩ := simLoop_spec draws store h
  obtain ⟨i, hi, hEq⟩ := List.mem_iff_getElem.mp hm
  have hsome : ((simLoop store draws).2)[i]? = some m := by
    rw [List.getElem?_eq_getElem hi, hEq]
  rw [hget i] at hsome
  cases hd : draws[i]? with
  | none => rw [hd] at hsome; simp at hsome
  | some d =>
    rw [hd] at hsome
    simp only [Option.map_some', Option.some.injEq] at hsome
    exact ⟨i, d, hd, hsome.symm⟩

/-- Weak membership characterisation of the created-missions list: it
holds for any store shape. -/
theorem simLoop_mem_weak : ∀ (draws : List Draw) (store : List (String × MissionRec))
    {m : MissionRec}, m ∈ (simLoop store draws).2 →
    ∃ c d, d ∈ draws ∧ m = mkMission c d := by
  intro draws
  induction draws with
  | nil => intro store m hm; simp [simLoop] at hm
  | cons d ds ih =>
    intro store m hm
    simp only [simLoop, List.mem_cons] at hm
    rcases hm with h | h
    · exact ⟨store.length, d, List.mem_cons_self d ds, h⟩
    · obtain ⟨c, d2, hd2, hEq⟩ := ih _ h
      exact ⟨c, d2, List.mem_cons_of_mem d hd2, hEq⟩

/-! ### Field-level facts about a generated mission -/

theorem mkMission_status (c : ℕ) (d : Draw) :
    (mkMission c d).status = statusChoices.get d.status_choice := rfl

theorem mkMission_sensor (c : ℕ) (d : Draw) :
    (mkMission c d).sensor_type = mission_types.get d.sensor_choice := rfl

theorem mkMission_type_eq (c : ℕ) (d : Draw) :
    (mkMission c d).type = (mkMission c d).sensor_type := rfl

theorem mkMission_timestamp_eq (c : ℕ) (d : Draw) :
    (mkMission c d).timestamp = (mkMission c d).start_time := rfl

theorem mkMission_progress (c : ℕ) (d : Draw) :
    (mkMission c d).progress = d.progress.val := rfl

theorem mkMission_lat (c : ℕ) (d : Draw) :
    (mkMission c d).gps_lat = round6 (4 + 2 * d.u_lat) := rfl

theorem mkMission_lon (c : ℕ) (d : Draw) :
    (mkMission c d).gps_lon = round6 (-75.5 + 2 * d.u_lon) := rfl

theorem mkMission_start (c : ℕ) (d : Draw) :
    (mkMission c d).start_time = isoZ (⌊startSecsQ d⌋).toNat := rfl

theorem mkMission_end (c : ℕ) (d : Draw) :
    (mkMission c d).end_time =
      if statusChoices.get d.status_choice == "completed" then
        some (isoZ (⌊startSecsQ d + 60 * ((d.durationPred.val : ℚ) + 1)⌋).toNat)
      else none := rfl

theorem mkMission_completed_iff (c : ℕ) (d : Draw) :
    (mkMission c d).status = "completed" ↔ (mkMission c d).end_time ≠ none := by
  rw [mkMission_status, mkMission_end]
  have h3 : d.status_choice = 0 ∨ d.status_choice = 1 ∨ d.status_choice = 2 := by omega
  rcases h3 with h | h | h <;> rw [h] <;> simp [statusChoices]

/-- Truncation commutes with adding a whole number of minutes: the
`end_time` second count is the `start_time` one plus `60 * minutes`. -/
theorem floor_add_minutes (q : ℚ) (k : ℕ) (hq : 0 ≤ q) :
    (⌊q + 60 * ((k : ℚ) + 1)⌋).toNat = (⌊q⌋).toNat + 60 * (k + 1) := by
  have h2 : q + 60 * ((k : ℚ) + 1) = q + ((60 * (k + 1) : ℤ) : ℚ) := by push_cast; ring
  rw [h2, Int.floor_add_int]
  have h3 : 0 ≤ ⌊q⌋ := Int.floor_nonneg.mpr hq
  omega

theorem mkMission_end_time_spec (c : ℕ) (d : Draw) (h0 : 0 ≤ d.u_start) :
    ∀ e, (mkMission c d).end_time = some e →
      ∃ s k, (mkMission c d).start_time = isoZ s ∧ e = isoZ (s + 60 * k) ∧
        1 ≤ k ∧ k ≤ 180 := by
  intro e he
  rw [mkMission_end] at he
  by_cases hc : (statusChoices.get d.status_choice == "completed") = true
  · rw [if_pos hc] at he
    have hq : 0 ≤ startSecsQ d := by
      unfold startSecsQ spanSecs
      positivity
    refine ⟨(⌊startSecsQ d⌋).toNat, d.durationPred.val + 1, mkMission_start c d, ?_, ?_, ?_⟩
    · have he2 : e = isoZ ((⌊startSecsQ d + 60 * ((d.durationPred.val : ℚ) + 1)⌋).toNat) :=
        (Option.some.inj he).symm
      rw [he2, floor_add_minutes _ _ hq]
    · omega
    · have := d.durationPred.isLt
      omega
  · rw [if_neg hc] at he
    exact absurd he (by simp)

theorem startSecsQ_nonneg (d : Draw) (h0 : 0 ≤ d.u_start) : 0 ≤ startSecsQ d := by
  unfold startSecsQ spanSecs
  positivity

theorem startSecs_toNat_lt (d : Draw) (h1 : d.u_start < 1) :
    (⌊startSecsQ d⌋).toNat < 31536000 := by
  have hlt : startSecsQ d < 31449600 := by
    unfold startSecsQ spanSecs
    nlinarith
  have hf : ⌊startSecsQ d⌋ < (31449600 : ℤ) := Int.floor_lt.mpr (by exact_mod_cast hlt)
  omega

theorem gps_lat_bounds (u : ℚ) (h0 : 0 ≤ u) (h1 : u < 1) :
    4 ≤ round6 (4 + 2 * u) ∧ round6 (4 + 2 * u) ≤ 6 :=
  ⟨le_round6_of_le ⟨4000000, by norm_num⟩ (by linarith),
    round6_le_of_lt ⟨6000000, by norm_num⟩ (by linarith)⟩

theorem gps_lon_bounds (u : ℚ) (h0 : 0 ≤ u) (h1 : u < 1) :
    -75.5 ≤ round6 (-75.5 + 2 * u) ∧ round6 (-75.5 + 2 * u) ≤ -73.5 :=
  ⟨le_round6_of_le ⟨-75500000, by norm_num⟩ (by linarith),
    round6_le_of_lt ⟨-73500000, by norm_num⟩ (by linarith)⟩

/-! ### Claim theorems -/

/-- C2: every sequential call to `simulate(n)` on a store currently holding
`c` missions hands the `n` generated missions the IDs
`M<1000+c+1>, …, M<1000+c+n>` in that order; the allocated ids are unique,
the store grows to `c + n` entries, and it keeps the reachable shape (so a
later call continues strictly above, never reusing an id). -/
theorem claim_C2 (st : AppState) (num : ℤ) (draws : List Draw) (now : String)
    (hgood : goodStore st.missions_db) (hlen : draws.length = num.toNat) :
    (simulate_missions num draws now st).1.missions.map (fun m => m.mission_id)
      = (List.range num.toNat).map (fun i => mkId (st.missions_db.length + 1 + i)) ∧
    ((simulate_missions num draws now st).1.missions.map fun m => m.mission_id).Nodup ∧
    goodStore (simulate_missions num draws now st).2.missions_db ∧
    (simulate_missions num draws now st).2.missions_db.length
      = st.missions_db.length + num.toNat := by
  obtain ⟨g1, g2, g3, -⟩ := simLoop_spec draws st.missions_db hgood
  have hids := simLoop_ids draws st.missions_db hgood
  rw [← hlen]
  refine ⟨hids, ?_, g1, ?_⟩
  · show ((simLoop st.missions_db draws).2.map fun m => m.mission_id).Nodup
    rw [hids]
    apply List.Nodup.map ?_ (List.nodup_range _)
    intro a b hEq
    have := mkId_injective hEq
    omega
  · show (simLoop st.missions_db draws).1.length = _
    rw [g2, List.length_append, List.length_map, g3]

/-- Witness for C2: simulating two missions from the empty store yields
ids `M1001, M1002`. -/
theorem claim_C2_witness :
    goodStore emptyState.missions_db ∧ ([wDraw, wDraw].length = (2 : ℤ).toNat) ∧
    (simulate_missions 2 [wDraw, wDraw] "ts" emptyState).1.missions.map
        (fun m => m.mission_id)
      = (List.range (2 : ℤ).toNat).map
          (fun i => mkId (emptyState.missions_db.length + 1 + i)) :=
  ⟨by rfl, by rfl,
    (claim_C2 emptyState 2 [wDraw, wDraw] "ts" (by rfl) (by rfl)).1⟩

/-- C3: a generated mission has an `end_time` field exactly when its status
is `completed`, and then the `end_time` instant is the `start_time` instant
plus `60 k` seconds for some whole number of minutes `k ∈ [1, 180]` —
strictly after `start_time`. -/
theorem claim_C3 (st : AppState) (num : ℤ) (draws : List Draw) (now : String)
    (hvalid : ∀ d ∈ draws, 0 ≤ d.u_start) :
    ∀ m ∈ (simulate_missions num draws now st).1.missions,
      (m.status = "completed" ↔ m.end_time ≠ none) ∧
      (∀ e, m.end_time = some e →
        ∃ s k, m.start_time = isoZ s ∧ e = isoZ (s + 60 * k) ∧ 1 ≤ k ∧ k ≤ 180) := by
  intro m hm
  obtain ⟨c, d, hd, rfl⟩ := simLoop_mem_weak draws st.missions_db hm
  exact ⟨mkMission_completed_iff c d, mkMission_end_time_spec c d (hvalid d hd)⟩

/-- Witness for C3 at a concrete completed mission. -/
theorem claim_C3_witness :
    (∀ d ∈ [wDraw], 0 ≤ d.u_start) ∧
    (mkMission 0 wDraw ∈ (simulate_missions 1 [wDraw] "ts" emptyState).1.missions) ∧
    ((mkMission 0 wDraw).status = "completed" ↔ (mkMission 0 wDraw).end_time ≠ none) := by
  have hstart : ∀ d ∈ [wDraw], 0 ≤ d.u_start := by
    intro d hd
    rw [List.mem_singleton.mp hd]
    norm_num [wDraw]
  have hmem : mkMission 0 wDraw ∈ (simulate_missions 1 [wDraw] "ts" emptyState).1.missions := by
    show mkMission 0 wDraw ∈ [mkMission 0 wDraw]
    exact List.mem_singleton.mpr rfl
  exact ⟨hstart, hmem, (claim_C3 emptyState 1 [wDraw] "ts" hstart (mkMission 0 wDraw) hmem).1⟩

/-- C7: every generated mission has a whole-second start instant inside
calendar year 2025 rendered by `isoZ` (hence ending in `Z`), a status from
the fixed three statuses, a sensor type from the fixed three sensor types,
`gps_lat ∈ [4, 6]` and `gps_lon ∈ [-75.5, -73.5]` each a multiple of
`10⁻⁶`, and an integer progress in `[0, 100]`. -/
theorem claim_C7 (st : AppState) (num : ℤ) (draws : List Draw) (now : String)
    (hvalid : ∀ d ∈ draws, ValidDraw d) :
    ∀ m ∈ (simulate_missions num draws now st).1.missions,
      (∃ s, s < 31536000 ∧ m.start_time = isoZ s) ∧
      (∃ t, m.start_time = t ++ "Z") ∧
      m.status ∈ statusChoices ∧
      m.sensor_type ∈ mission_types ∧
      (4 ≤ m.gps_lat ∧ m.gps_lat ≤ 6) ∧
      (∃ z : ℤ, m.gps_lat = z / 1000000) ∧
      (-75.5 ≤ m.gps_lon ∧ m.gps_lon ≤ -73.5) ∧
      (∃ z : ℤ, m.gps_lon = z / 1000000) ∧
      m.progress ≤ 100 := by
  intro m hm
  obtain ⟨c, d, hd, rfl⟩ := simLoop_mem_weak draws st.missions_db hm
  obtain ⟨hv1, hv2, hv3, hv4, hv5, hv6⟩ := hvalid d hd
  refine ⟨⟨(⌊startSecsQ d⌋).toNat, startSecs_toNat_lt d hv2, mkMission_start c d⟩,
    ?_, ?_, ?_, ?_, ?_, ?_, ?_, ?_⟩
  · rw [mkMission_start]
    exact isoZ_ends_in_Z _
  · rw [mkMission_status]
    exact List.get_mem statusChoices d.status_choice.val d.status_choice.isLt
  · rw [mkMission_sensor]
    exact List.get_mem mission_types d.sensor_choice.val d.sensor_choice.isLt
  · rw [mkMission_lat]
    exact gps_lat_bounds d.u_lat hv3 hv4
  · rw [mkMission_lat]
    exact round6_is_multiple _
  · rw [mkMission_lon]
    exact gps_lon_bounds d.u_lon hv5 hv6
  · rw [mkMission_lon]
    exact round6_is_multiple _
  · rw [mkMission_progress]
    have := d.progress.isLt
    omega

/-- Witness for C7 at a concrete generated mission. -/
theorem claim_C7_witness :
    (∀ d ∈ [wDraw], ValidDraw d) ∧
    ((mkMission 0 wDraw).status ∈ statusChoices ∧
      (mkMission 0 wDraw).sensor_type ∈ mission_types ∧
      (mkMission 0 wDraw).progress ≤ 100) := by
  have hv : ∀ d ∈ [wDraw], ValidDraw d := by
    intro d hd
    rw [List.mem_singleton.mp hd]
    norm_num [ValidDraw, wDraw]
  have hmem : mkMission 0 wDraw ∈ (simulate_missions 1 [wDraw] "ts" emptyState).1.missions := by
    show mkMission 0 wDraw ∈ [mkMission 0 wDraw]
    exact List.mem_singleton.mpr rfl
  have h := claim_C7 emptyState 1 [wDraw] "ts" hv (mkMission 0 wDraw) hmem
  exact ⟨hv, h.2.2.1, h.2.2.2.1, h.2.2.2.2.2.2.2.2⟩

/-- C9: every generated mission dict carries both `sensor_type` and `type`
keys with equal values, and both `timestamp` and `start_time` keys with
equal values. -/
theorem claim_C9 (st : AppState) (num : ℤ) (draws : List Draw) (now : String) :
    ∀ m ∈ (simulate_missions num draws now st).1.missions,
      m.type = m.sensor_type ∧ m.timestamp = m.start_time := by
  intro m hm
  obtain ⟨c, d, hd, rfl⟩ := simLoop_mem_weak draws st.missions_db hm
  exact ⟨mkMission_type_eq c d, mkMission_timestamp_eq c d⟩

/-- Witness for C9 at a concrete generated mission. -/
theorem claim_C9_witness :
    (mkMission 0 wDraw).type = (mkMission 0 wDraw).sensor_type ∧
    (mkMission 0 wDraw).timestamp = (mkMission 0 wDraw).start_time :=
  claim_C9 emptyState 1 [wDraw] "ts" (mkMission 0 wDraw)
    (by
      show mkMission 0 wDraw ∈ [mkMission 0 wDraw]
      exact List.mem_singleton.mpr rfl)

/-- C10: `simulate(count)` with `count ≤ 0` still succeeds: the loop body
never runs, the mission store is unchanged, and one `SimRun` is appended
whose `missions_generated` equals the requested count, whose mission list
is empty, and whose `simulation_id` is the previous number of runs plus
one. -/
theorem claim_C10 (st : AppState) (num : ℤ) (draws : List Draw) (now : String)
    (hnum : num ≤ 0) (hlen : draws.length = num.toNat) :
    (simulate_missions num draws now st).1.missions = [] ∧
    (simulate_missions num draws now st).1.missions_generated = num ∧
    (simulate_missions num draws now st).1.simulation_id
      = st.simulations_db.length + 1 ∧
    (simulate_missions num draws now st).2.missions_db = st.missions_db ∧
    (simulate_missions num draws now st).2.simulations_db
      = st.simulations_db ++ [(simulate_missions num draws now st).1] := by
  have h0 : draws = [] := List.length_eq_zero.mp (by rw [hlen, Int.toNat_of_nonpos hnum])
  subst h0
  exact ⟨rfl, rfl, rfl, rfl, rfl⟩

/-- Witness for C10 at `count = -3` on a nonempty state. -/
theorem claim_C10_witness :
    ((-3 : ℤ) ≤ 0) ∧
    (simulate_missions (-3) [] "ts" wState).1.missions = [] ∧
    (simulate_missions (-3) [] "ts" wState).1.missions_generated = -3 ∧
    (simulate_missions (-3) [] "ts" wState).2.missions_db = wState.missions_db :=
  let h := claim_C10 wState (-3) [] "ts" (by decide) (by decide)
  ⟨by decide, h.1, h.2.1, h.2.2.2.1⟩

/-- C8: a stored mission record is never mutated by any later public
operation: after `simulate`, `upload`, `query`, a mission-status lookup or
the simulations listing, every previously stored mission is still found
unchanged under its id. -/
theorem claim_C8 (st : AppState) (mid : String) (m : MissionRec)
    (hgood : goodStore st.missions_db) (hm : st.missions_db.lookup mid = some m) :
    (∀ num draws now,
      (simulate_missions num draws now st).2.missions_db.lookup mid = some m) ∧
    (∀ d, (upload_data st d).2.missions_db.lookup mid = some m) ∧
    (∀ f, (query_endpoint st f).2.missions_db.lookup mid = some m) ∧
    (∀ q, (get_mission_status st q).2.missions_db.lookup mid = some m) ∧
    (get_simulations st).2.missions_db.lookup mid = some m := by
  refine ⟨?_, fun d => hm, fun f => hm, fun q => hm, hm⟩
  intro num draws now
  obtain ⟨-, g2, -, -⟩ := simLoop_spec draws st.missions_db hgood
  show (simLoop st.missions_db draws).1.lookup mid = some m
  rw [g2, List.lookup_append, hm]
  rfl

/-- Witness for C8: the stored mission `M1001` survives a simulate call and
an upload untouched. -/
theorem claim_C8_witness :
    goodStore wState.missions_db ∧
    wState.missions_db.lookup "M1001" = some wMission ∧
    (simulate_missions 1 [wDraw] "ts" wState).2.missions_db.lookup "M1001"
      = some wMission ∧
    (∀ d, (upload_data wState d).2.missions_db.lookup "M1001" = some wMission) :=
  let h := claim_C8 wState "M1001" wMission (by rfl) (by rfl)
  ⟨by rfl, by rfl, h.1 1 [wDraw] "ts", h.2.1⟩

/-- Membership in a filtered list, as a boolean, coincides with the filter
predicate for elements of the base list. -/
theorem decide_mem_filter {p : MissionRec → Bool} {l : List MissionRec} {r : MissionRec}
    (hr : r ∈ l) : decide (r ∈ l.filter p) = p r := by
  cases hp : p r with
  | true => simp [List.mem_filter, hr, hp]
  | false =>
    have hnot : r ∉ l.filter p := fun hmem => by
      have h2 := (List.mem_filter.mp hmem).2
      rw [hp] at h2
      exact Bool.false_ne_true h2
    simp [hnot]

/-- C4 counterexample: with one stored mission of sensor type `thermal`
and the filter configuration supplying the empty-string `sensor_type`, the
code returns the mission while the spec predicate (exact equality against
the empty string) keeps nothing. -/
theorem claim_C4_counterexample :
    ¬ ((query_data wStore cexFilters).results
        = (wStore.map Prod.snd).filter (specQueryPred cexFilters)) := by
  decide

/-- C4 (amended): `query` returns exactly the stored missions satisfying
all supplied predicates — timestamp ≥ `start_date` lexicographically,
`sensor_type` exact equality unless the supplied value is the empty string
(which the code treats as absent), GPS coordinates within `0.001` — with
absent options imposing no constraint, `total_found` the number of
returned results, the filter set echoed back, and the full mission set
returned when no filter is given. -/
theorem claim_C4 (store : List (String × MissionRec)) (f : Filters) :
    (query_data store f).results = (store.map Prod.snd).filter (amendedQueryPred f) ∧
    (query_data store f).total_found = (query_data store f).results.length ∧
    (query_data store f).filters_applied = f ∧
    (f = noFilters → (query_data store f).results = store.map Prod.snd) := by
  refine ⟨query_data_results_eq store f, rfl, rfl, ?_⟩
  intro h
  subst h
  rfl

/-- Witness for C4: the no-filter query returns the full snapshot. -/
theorem claim_C4_witness :
    (query_data wStore noFilters).results = wStore.map Prod.snd :=
  (claim_C4 wStore noFilters).2.2.2 rfl

/-- C5: the filters compose by logical AND as a pure intersection — the
result of a query supplying several options is the sublist of stored
missions lying in each single-option query result, and applying the four
filter stages in the opposite order yields the same result list. -/
theorem claim_C5 (store : List (String × MissionRec)) (f : Filters) :
    ((query_data store f).results
      = (store.map Prod.snd).filter fun r =>
          decide (r ∈ (query_data store
            { start_date := f.start_date, sensor_type := none, lat := none,
              lon := none }).results) &&
          decide (r ∈ (query_data store
            { start_date := none, sensor_type := f.sensor_type, lat := none,
              lon := none }).results) &&
          decide (r ∈ (query_data store
            { start_date := none, sensor_type := none, lat := f.lat,
              lon := none }).results) &&
          decide (r ∈ (query_data store
            { start_date := none, sensor_type := none, lat := none,
              lon := f.lon }).results)) ∧
    (query_data store f).results = query_data_rev store f := by
  constructor
  · rw [query_data_results_eq]
    apply List.filter_congr
    intro r hr
    rw [query_data_results_eq store
        { start_date := f.start_date, sensor_type := none, lat := none, lon := none },
      query_data_results_eq store
        { start_date := none, sensor_type := f.sensor_type, lat := none, lon := none },
      query_data_results_eq store
        { start_date := none, sensor_type := none, lat := f.lat, lon := none },
      query_data_results_eq store
        { start_date := none, sensor_type := none, lat := none, lon := f.lon },
      decide_mem_filter hr, decide_mem_filter hr, decide_mem_filter hr,
      decide_mem_filter hr]
    simp [amendedQueryPred]
  · rw [query_data_results_eq, query_data_rev_eq]

/-- C1 counterexample: a malformed token and a verified token whose
subject is not registered produce two different errors — a 401 with
"Invalid or expired token" against a 404 with "User not found" — so the
caller can distinguish the two failure modes, contradicting the claimed
single uniform error. -/
theorem claim_C1_counterexample :
    get_current_user [] junkToken = .error (401, "Invalid or expired token") ∧
    get_current_user [] (create_jwt "alice@example")
      = .error (404, "User not found") ∧
    ((401, "Invalid or expired token") : HttpError) ≠ (404, "User not found") :=
  ⟨rfl, rfl, by decide⟩

/-- C1 (amended): session resolution fails closed in both failure modes,
but with distinguishable errors — token verification failure yields the
401 error "Invalid or expired token" while a missing subject user yields
the 404 error "User not found". -/
theorem claim_C1 (users : List (String × UserRec)) (token : String) :
    (decode_jwt token = none →
      get_current_user users token = .error (401, "Invalid or expired token")) ∧
    (∀ email, decode_jwt token = some email → users.lookup email = none →
      get_current_user users token = .error (404, "User not found")) ∧
    ((401, "Invalid or expired token") : HttpError) ≠ (404, "User not found") := by
  refine ⟨?_, ?_, by decide⟩
  · intro h
    simp [get_current_user, h]
  · intro email h1 h2
    simp [get_current_user, h1, h2]

/-- Witness for C1 at the malformed token and the empty user table. -/
theorem claim_C1_witness :
    decode_jwt junkToken = none ∧
    get_current_user [] junkToken = .error (401, "Invalid or expired token") :=
  ⟨rfl, (claim_C1 [] junkToken).1 rfl⟩

/-- An issued token is never the empty string. -/
theorem create_jwt_ne_empty (sub : String) : create_jwt sub ≠ "" := by
  intro h
  have hd : jwtHeader ++ '.' :: sub.toList ++ '.' :: jwtSignL sub.toList = [] :=
    congrArg String.data h
  have h2 := List.append_eq_nil.mp hd
  have h3 : jwtHeader ≠ [] := by decide
  exact h3 (List.append_eq_nil.mp h2.1).1

/-- C6: login fails with the 404 "User not found" error exactly when the
email is unregistered; for a user registered with password `p0`, a wrong
password always fails with the 401 "Incorrect password" error and nothing
else, and the right password succeeds — `authenticate` yields the stored
user record and `login` answers success with a non-empty bearer token. -/
theorem claim_C6 (users : List (String × UserRec)) (email p p0 : String) :
    (users.lookup email = none →
      authenticate users email p = .error (404, "User not found") ∧
      login users email p = .error (404, "User not found")) ∧
    (∀ u, users.lookup email = some u → u.password = hash_password p0 →
      ((p ≠ p0 →
        authenticate users email p = .error (401, "Incorrect password") ∧
        login users email p = .error (401, "Incorrect password")) ∧
      (p = p0 →
        authenticate users email p = .ok u ∧
        login users email p = .ok
          { status := "success",
            access_token := create_jwt email, token_type := "Bearer" } ∧
        create_jwt email ≠ ""))) := by
  constructor
  · intro h
    constructor
    · unfold authenticate
      rw [h]
    · unfold login authenticate
      rw [h]
      rfl
  · intro u hu hpw
    constructor
    · intro hne
      have hv : verify_password p u.password = false := by
        rw [hpw]
        cases hvp : verify_password p (hash_password p0) with
        | false => rfl
        | true => exact absurd ((verify_password_iff p p0).mp hvp) hne
      constructor
      · simp [authenticate, hu, hv]
      · simp [login, authenticate, Except.map, hu, hv]
    · intro heq
      subst heq
      have hv : verify_password p u.password = true := by
        rw [hpw]
        exact (verify_password_iff p p).mpr rfl
      refine ⟨?_, ?_, create_jwt_ne_empty email⟩
      · simp [authenticate, hu, hv]
      · simp [login, authenticate, Except.map, hu, hv]

/-- Witness for C6: with the one-user table registered under password
`pw1`, a wrong password gives the 401 error and the right one logs in. -/
theorem claim_C6_witness :
    wUsers.lookup "a@xcom" = some wUser ∧
    wUser.password = hash_password "pw1" ∧
    authenticate wUsers "a@xcom" "wrong" = .error (401, "Incorrect password") ∧
    login wUsers "a@xcom" "pw1"
      = .ok
        { status := "success", access_token := create_jwt "a@xcom",
          token_type := "Bearer" } :=
  ⟨rfl, rfl,
    (((claim_C6 wUsers "a@xcom" "wrong" "pw1").2 wUser rfl rfl).1 (by decide)).1,
    (((claim_C6 wUsers "a@xcom" "pw1" "pw1").2 wUser rfl rfl).2 rfl).2.1⟩

end FastapiBack
